import Mathlib

/-!
Shallow embedding of the Spectyra NLI service (`src/infra/nli-service/main.py`).

The service exposes `POST /nli` (classify premise/hypothesis pairs),
`GET /health`, and `GET /`.  Its compute path tokenizes each
(premise, hypothesis) pair, runs a sequence-classification model, applies a
row-wise softmax, and decodes the argmax class through a label map chosen at
load time.

The external libraries (the HuggingFace tokenizer and the torch model) are not
part of the repository; their composition is abstracted here as a pure
per-pair logits function `Net : String → String → Fin 3 → ℝ`.  This is the
exact-real semantics of the forward pass: rows of a padded batch are
independent (padding tokens are masked), `torch.softmax(logits, dim=-1)`
normalizes each row separately, and index `idx` of the batch output is the
network applied to the `idx`-th (truncated) input pair.  Everything the
repository's own code does — truncation, validation, batching, label
decoding, response assembly — is embedded directly from the source.
-/

namespace Spectyra

/-- A premise/hypothesis pair (`NliPair` pydantic model, main.py lines 106-108). -/
structure NliPair where
  premise : String
  hypothesis : String
deriving DecidableEq

/-- The `/nli` request body (`NliRequest`, main.py lines 111-113): a list of
pairs and an optional `model` field reserved for future multi-model support. -/
structure NliRequest where
  pairs : List NliPair
  model : Option String
deriving DecidableEq

/-- One classification result (`NliResultItem`, main.py lines 116-119): best
label, its probability, and the full per-label distribution.  The Python dict
`scores` is embedded as an association list in insertion order
(`label_map[0]`, `label_map[1]`, `label_map[2]`). -/
structure NliResultItem where
  label : String
  confidence : ℝ
  scores : List (String × ℝ)

/-- Outcome of the `/nli` handler: either an `HTTPException` with a status
code and detail string, or a successful result list. -/
inductive NliOutcome where
  | httpError (status : Nat) (detail : String)
  | ok (results : List NliResultItem)

/-- The `/health` response body (`HealthResponse`, main.py lines 126-129). -/
structure HealthResponse where
  status : String
  model : String
  device : String
deriving DecidableEq

/-- Environment-derived configuration (main.py lines 35-38), read once at
startup: `NLI_MODEL`, `DEVICE`, `MAX_LENGTH`, `BATCH_SIZE`. -/
structure Config where
  nliModel : String
  device : String
  maxLength : Nat
  batchSize : Nat
deriving DecidableEq

/-- The default configuration values of main.py lines 35-38. -/
def defaultConfig : Config :=
  { nliModel := "microsoft/deberta-v3-large-mnli"
    device := "cpu"
    maxLength := 256
    batchSize := 16 }

/-- Abstraction of the loaded tokenizer+model pipeline: the logits row the
model produces for one (already truncated) premise/hypothesis pair.  MNLI
checkpoints have exactly three output classes. -/
abbrev Net := String → String → Fin 3 → ℝ

/-- Standard MNLI class-index-to-label dictionary (`LABEL_MAP`, main.py
lines 41-45). -/
def LABEL_MAP : Fin 3 → String
  | 0 => "entailment"
  | 1 => "neutral"
  | 2 => "contradiction"

/-- DeBERTa class-index-to-label dictionary (`DEBERTA_LABEL_MAP`, main.py
lines 48-52). -/
def DEBERTA_LABEL_MAP : Fin 3 → String
  | 0 => "contradiction"
  | 1 => "neutral"
  | 2 => "entailment"

/-- The process-wide globals `model`, `tokenizer`, `label_map` (main.py
lines 55-57).  The tokenizer carries no data relevant to the embedded logic
beyond being loaded or not, so it is `Option Unit`. -/
structure ServiceState where
  model : Option Net
  tokenizer : Option Unit
  label_map : Option (Fin 3 → String)

/-- The state at process start: all three globals are `None`. -/
def initialState : ServiceState := ⟨none, none, none⟩

/-- Python's `str.lower()`: lower-case each character.  (Lean's own
`String.toLower` is the same character-wise map; it is written out over the
character list here so that it reduces by computation.) -/
def lowercase (s : String) : String :=
  String.mk (s.toList.map Char.toLower)

/-- Python's `sub in s` substring test, used by `load_model` on the lowered
model identifier. -/
def containsSubstring (sub s : String) : Bool :=
  decide (sub.toList <:+: s.toList)

/-- Embed of `load_model` (main.py lines 60-85): populates all three globals;
the label map is `DEBERTA_LABEL_MAP` when the lowered model identifier
contains `"deberta"`, else `LABEL_MAP`.  Device placement only affects which
tensor device the opaque `net` computes on, not its mathematical value, so it
is not part of the state. -/
def load_model (cfg : Config) (net : Net) : ServiceState :=
  { model := some net
    tokenizer := some ()
    label_map :=
      some (if containsSubstring "deberta" (lowercase cfg.nliModel) then
              DEBERTA_LABEL_MAP
            else
              LABEL_MAP) }

/-- Exact-real softmax over a three-class logits row
(`torch.softmax(logits, dim=-1)` applied to one row, main.py line 210). -/
noncomputable def softmax (l : Fin 3 → ℝ) : Fin 3 → ℝ :=
  fun i => Real.exp (l i) / ∑ j, Real.exp (l j)

/-- Embed of `torch.argmax` on one probability row (main.py line 221): the
index of the first maximal entry. -/
noncomputable def argmax3 (p : Fin 3 → ℝ) : Fin 3 :=
  if p 1 ≤ p 0 ∧ p 2 ≤ p 0 then 0
  else if p 2 ≤ p 1 then 1
  else 2

/-- The body of the per-item loop of `classify_batch` (main.py lines 214-229)
for one pair: truncate both fields to `MAX_LENGTH` characters (lines 189-190),
obtain the softmax probability row, build the `scores` dict over
`label_map[0..2]` in index order, and decode the argmax class. -/
noncomputable def classifyOne (net : Net) (lm : Fin 3 → String) (maxLen : Nat)
    (p : NliPair) : NliResultItem :=
  let probs := softmax (net (p.premise.take maxLen) (p.hypothesis.take maxLen))
  let bestIdx := argmax3 probs
  { label := lm bestIdx
    confidence := probs bestIdx
    scores := (List.finRange 3).map fun i => (lm i, probs i) }

/-- Embed of `classify_batch` (main.py lines 186-231).  The batch forward pass
produces one logits row per input pair, in order; softmax and argmax are
row-wise; so the result list is the per-pair computation mapped over the
input list. -/
noncomputable def classify_batch (net : Net) (lm : Fin 3 → String)
    (maxLen : Nat) (pairs : List NliPair) : List NliResultItem :=
  pairs.map (classifyOne net lm maxLen)

/-- The batching loop of `classify_nli` (main.py lines 178-181):
`pairs[i:i+BATCH_SIZE]` for `i = 0, BATCH_SIZE, 2*BATCH_SIZE, ...`, i.e. the
contiguous size-`bs` slices of the list in order.  Python's `range` with step
0 raises, hence the guard: chunking is only meaningful for `bs ≠ 0`. -/
def chunkList {α : Type} (bs : Nat) : List α → List (List α)
  | [] => []
  | a :: t =>
      if bs = 0 then []
      else (a :: t).take bs :: chunkList bs ((a :: t).drop bs)
termination_by l => l.length
decreasing_by
  rename_i h
  simp only [List.length_drop, List.length_cons]
  have h1 : 0 < bs := Nat.pos_of_ne_zero h
  omega

/-- Embed of the `/nli` handler `classify_nli` (main.py lines 159-183).
The checks appear in source order: readiness (line 166), empty list
(line 169), 100-pair cap (line 172); then the batching loop.  A request
reaching the compute path while `label_map` is still `None` would raise in
Python and surface as an HTTP 500. -/
noncomputable def classify_nli (cfg : Config) (st : ServiceState)
    (req : NliRequest) : NliOutcome :=
  if st.model.isNone || st.tokenizer.isNone then
    .httpError 503 "Model not loaded"
  else if req.pairs.isEmpty then
    .ok []
  else if req.pairs.length > 100 then
    .httpError 400 "Maximum 100 pairs per request"
  else
    match st.model, st.label_map with
    | some net, some lm =>
        .ok ((chunkList cfg.batchSize req.pairs).map
              (classify_batch net lm cfg.maxLength)).flatten
    | _, _ => .httpError 500 "Internal Server Error"

/-- Embed of the `/health` handler `health_check` (main.py lines 132-142):
503 while `model` is `None`, otherwise a healthy report carrying the
configured model identifier and device. -/
def health_check (cfg : Config) (st : ServiceState) :
    Except (Nat × String) HealthResponse :=
  if st.model.isNone then
    .error (503, "Model not loaded")
  else
    .ok { status := "healthy", model := cfg.nliModel, device := cfg.device }

/-! ### Concrete fixtures used to instantiate theorems -/

/-- A tiny configuration used for concrete instantiations: model identifier
without "deberta", default device, max length and batch size. -/
def wCfg : Config :=
  { nliModel := "m", device := "cpu", maxLength := 256, batchSize := 16 }

/-- A concrete network assigning identical logits to every class. -/
def wNet : Net := fun _ _ _ => 0

/-- A concrete premise/hypothesis pair. -/
def wPair : NliPair := { premise := "a", hypothesis := "b" }

/-- A one-pair request with no model override. -/
def wReqOne : NliRequest := { pairs := [wPair], model := none }

/-- The same one-pair request with a model override set. -/
def wReqAlt : NliRequest := { pairs := [wPair], model := some "other-model" }

/-- An empty request. -/
def wReqEmpty : NliRequest := { pairs := [], model := none }

/-- A request with 101 pairs, one over the cap. -/
def wReq101 : NliRequest := { pairs := List.replicate 101 wPair, model := none }

/-! ### Helper lemmas -/

/-- Concatenating the contiguous size-`bs` slices of a list in order
reconstructs the list. -/
theorem chunkList_flatten {α : Type} (bs : Nat) (hbs : bs ≠ 0) (l : List α) :
    (chunkList bs l).flatten = l := by
  generalize hn : l.length = n
  induction n using Nat.strong_induction_on generalizing l with
  | _ n ih =>
    cases l with
    | nil => simp [chunkList]
    | cons a t =>
      rw [chunkList, if_neg hbs, List.flatten_cons]
      have hlt : ((a :: t).drop bs).length < n := by
        subst hn
        simp only [List.length_drop, List.length_cons]
        have h1 : 0 < bs := Nat.pos_of_ne_zero hbs
        omega
      rw [ih _ hlt _ rfl, List.take_append_drop]

/-- The batched loop of `classify_nli` computes exactly the single-batch
classification of the whole pair list. -/
theorem chunked_classify_batch (net : Net) (lm : Fin 3 → String)
    (maxLen bs : Nat) (hbs : bs ≠ 0) (pairs : List NliPair) :
    ((chunkList bs pairs).map (classify_batch net lm maxLen)).flatten =
      classify_batch net lm maxLen pairs := by
  unfold classify_batch
  rw [← List.map_flatten, chunkList_flatten bs hbs]

/-- The sum of the exponentials of a logits row is positive. -/
theorem expSum_pos (l : Fin 3 → ℝ) : 0 < ∑ j, Real.exp (l j) :=
  Finset.sum_pos (fun j _ => Real.exp_pos (l j)) Finset.univ_nonempty

/-- Each softmax output is nonnegative. -/
theorem softmax_nonneg (l : Fin 3 → ℝ) (i : Fin 3) : 0 ≤ softmax l i :=
  div_nonneg (Real.exp_pos (l i)).le (expSum_pos l).le

/-- Each softmax output is at most one. -/
theorem softmax_le_one (l : Fin 3 → ℝ) (i : Fin 3) : softmax l i ≤ 1 := by
  unfold softmax
  rw [div_le_one (expSum_pos l)]
  exact Finset.single_le_sum (fun j _ => (Real.exp_pos (l j)).le)
    (Finset.mem_univ i)

/-- The three softmax outputs sum to one (exactly, in real arithmetic). -/
theorem softmax_sum (l : Fin 3 → ℝ) :
    softmax l 0 + softmax l 1 + softmax l 2 = 1 := by
  unfold softmax
  rw [div_add_div_same, div_add_div_same, div_eq_one_iff_eq (expSum_pos l).ne']
  rw [Fin.sum_univ_three]

/-- `argmax3` returns an index whose value dominates every entry of the row. -/
theorem argmax3_le (p : Fin 3 → ℝ) (i : Fin 3) : p i ≤ p (argmax3 p) := by
  unfold argmax3
  split_ifs with h1 h2
  · fin_cases i
    · exact le_refl _
    · exact h1.1
    · exact h1.2
  · have h0 : p 0 ≤ p 1 := by
      rcases le_or_lt (p 0) (p 1) with h | h
      · exact h
      · have h02 : ¬ p 2 ≤ p 0 := fun hc => h1 ⟨h.le, hc⟩
        push_neg at h02
        linarith
    fin_cases i
    · exact h0
    · exact le_refl _
    · exact h2
  · push_neg at h2
    have h0 : p 0 ≤ p 2 := by
      rcases le_or_lt (p 1) (p 0) with h | h
      · have h02 : ¬ p 2 ≤ p 0 := fun hc => h1 ⟨h, hc⟩
        push_neg at h02
        exact h02.le
      · linarith
    fin_cases i
    · exact h0
    · exact h2.le
    · exact le_refl _

/-- How `classify_nli` evaluates on a fully loaded state, with a non-empty
pair list within the cap and a positive batch size: as one classification per
input pair, in order. -/
theorem classify_nli_ready (cfg : Config) (net : Net) (lm : Fin 3 → String)
    (req : NliRequest) (hbs : cfg.batchSize ≠ 0) (hne : req.pairs ≠ [])
    (hle : req.pairs.length ≤ 100) :
    classify_nli cfg ⟨some net, some (), some lm⟩ req =
      NliOutcome.ok (req.pairs.map (classifyOne net lm cfg.maxLength)) := by
  have hbe : req.pairs.isEmpty = false := by
    cases h : req.pairs with
    | nil => exact absurd h hne
    | cons a t => rfl
  unfold classify_nli
  simp only [Option.isNone_some, Bool.or_self, Bool.false_eq_true, if_false,
    hbe, gt_iff_lt]
  rw [if_neg (Nat.not_lt.mpr hle)]
  show NliOutcome.ok
      ((chunkList cfg.batchSize req.pairs).map
        (classify_batch net lm cfg.maxLength)).flatten = _
  rw [chunked_classify_batch net lm cfg.maxLength cfg.batchSize hbs]
  rfl

/-- Evaluation of `List.finRange 3` to its three elements. -/
theorem finRange_three : List.finRange 3 = [0, 1, 2] := by decide

/-- Every result produced by an accepted request is the per-pair
classification of some input pair. -/
theorem mem_results_classify_nli (cfg : Config) (net : Net)
    (lm : Fin 3 → String) (req : NliRequest) (rs : List NliResultItem)
    (r : NliResultItem)
    (hok : classify_nli cfg ⟨some net, some (), some lm⟩ req =
      NliOutcome.ok rs)
    (hr : r ∈ rs) :
    ∃ p : NliPair, r = classifyOne net lm cfg.maxLength p := by
  unfold classify_nli at hok
  simp only [Option.isNone_some, Bool.or_self, Bool.false_eq_true,
    if_false] at hok
  by_cases he : req.pairs.isEmpty = true
  · rw [if_pos he] at hok
    obtain rfl : ([] : List NliResultItem) = rs := by injection hok
    exact absurd hr (List.not_mem_nil r)
  · rw [if_neg he] at hok
    by_cases hl : req.pairs.length > 100
    · rw [if_pos hl] at hok
      exact (NliOutcome.noConfusion hok)
    · rw [if_neg hl] at hok
      have hok2 : NliOutcome.ok
          ((chunkList cfg.batchSize req.pairs).map
            (classify_batch net lm cfg.maxLength)).flatten =
          NliOutcome.ok rs := hok
      obtain rfl :
          ((chunkList cfg.batchSize req.pairs).map
            (classify_batch net lm cfg.maxLength)).flatten = rs := by
        injection hok2
      rw [List.mem_flatten] at hr
      obtain ⟨c, hc, hrc⟩ := hr
      rw [List.mem_map] at hc
      obtain ⟨chunk, _hchunk, rfl⟩ := hc
      unfold classify_batch at hrc
      rw [List.mem_map] at hrc
      obtain ⟨p, _hp, rfl⟩ := hrc
      exact ⟨p, rfl⟩

/-- The keys of the `scores` dict are the three labels of the active label
map in index order. -/
theorem classifyOne_scores_keys (net : Net) (lm : Fin 3 → String) (ml : Nat)
    (p : NliPair) :
    (classifyOne net lm ml p).scores.map Prod.fst = [lm 0, lm 1, lm 2] := by
  simp [classifyOne, finRange_three]

/-- Every value of the `scores` dict lies in the unit interval. -/
theorem classifyOne_scores_bounds (net : Net) (lm : Fin 3 → String) (ml : Nat)
    (p : NliPair) :
    ∀ q ∈ (classifyOne net lm ml p).scores, 0 ≤ q.2 ∧ q.2 ≤ 1 := by
  intro q hq
  simp only [classifyOne, finRange_three, List.map_cons, List.map_nil,
    List.mem_cons, List.not_mem_nil, or_false] at hq
  rcases hq with h | h | h <;> subst h <;>
    exact ⟨softmax_nonneg _ _, softmax_le_one _ _⟩

/-- The values of the `scores` dict sum to one. -/
theorem classifyOne_scores_sum (net : Net) (lm : Fin 3 → String) (ml : Nat)
    (p : NliPair) :
    ((classifyOne net lm ml p).scores.map Prod.snd).sum = 1 := by
  simp only [classifyOne, finRange_three, List.map_cons, List.map_nil,
    List.sum_cons, List.sum_nil]
  have h := softmax_sum
    (net (p.premise.take ml) (p.hypothesis.take ml))
  linarith

/-- A label-probability pair indexed by any class index is an entry of the
`scores` dict. -/
theorem pair_mem_scores (lm : Fin 3 → String) (pr : Fin 3 → ℝ) (j : Fin 3) :
    (lm j, pr j) ∈ (List.finRange 3).map fun i => (lm i, pr i) := by
  rw [List.mem_map]
  exact ⟨j, List.mem_finRange j, rfl⟩

/-- The reported label and confidence appear together as an entry of the
`scores` dict. -/
theorem classifyOne_label_mem (net : Net) (lm : Fin 3 → String) (ml : Nat)
    (p : NliPair) :
    ((classifyOne net lm ml p).label, (classifyOne net lm ml p).confidence) ∈
      (classifyOne net lm ml p).scores :=
  pair_mem_scores lm
    (softmax (net (p.premise.take ml) (p.hypothesis.take ml)))
    (argmax3 (softmax (net (p.premise.take ml) (p.hypothesis.take ml))))

/-- The reported confidence dominates every value of the `scores` dict. -/
theorem classifyOne_confidence_max (net : Net) (lm : Fin 3 → String)
    (ml : Nat) (p : NliPair) :
    ∀ q ∈ (classifyOne net lm ml p).scores,
      q.2 ≤ (classifyOne net lm ml p).confidence := by
  intro q hq
  simp only [classifyOne, finRange_three, List.map_cons, List.map_nil,
    List.mem_cons, List.not_mem_nil, or_false] at hq ⊢
  rcases hq with h | h | h <;> subst h
  · exact argmax3_le
      (softmax (net (p.premise.take ml) (p.hypothesis.take ml))) 0
  · exact argmax3_le
      (softmax (net (p.premise.take ml) (p.hypothesis.take ml))) 1
  · exact argmax3_le
      (softmax (net (p.premise.take ml) (p.hypothesis.take ml))) 2

/-- The fixture request evaluates to a single-result success against the
fixture state loaded from the fixture configuration. -/
theorem wReqOne_ok :
    classify_nli wCfg (load_model wCfg wNet) wReqOne =
      NliOutcome.ok [classifyOne wNet LABEL_MAP wCfg.maxLength wPair] := by
  have hd : containsSubstring "deberta" (lowercase wCfg.nliModel) = false := by
    decide
  have hst : load_model wCfg wNet = ⟨some wNet, some (), some LABEL_MAP⟩ := by
    unfold load_model
    simp [hd]
  rw [hst]
  exact classify_nli_ready wCfg wNet LABEL_MAP wReqOne (by decide) (by decide)
    (by decide)

/-! ### Claim theorems -/

/-- C1: for every accepted `/nli` request (service initialized, pair list
non-empty and of length at most 100, positive configured batch size), the
returned result list has exactly the same length as the input pair list and
the i-th result is the classification of the i-th input pair — no
reordering, no dropping. -/
theorem C1_results_match_input (cfg : Config) (net : Net) (lm : Fin 3 → String)
    (req : NliRequest) (hbs : cfg.batchSize ≠ 0) (hne : req.pairs ≠ [])
    (hle : req.pairs.length ≤ 100) :
    ∃ rs : List NliResultItem,
      classify_nli cfg ⟨some net, some (), some lm⟩ req = NliOutcome.ok rs ∧
      rs.length = req.pairs.length ∧
      ∀ i : Nat,
        rs[i]? = req.pairs[i]?.map (classifyOne net lm cfg.maxLength) :=
  ⟨req.pairs.map (classifyOne net lm cfg.maxLength),
    classify_nli_ready cfg net lm req hbs hne hle,
    List.length_map _ _,
    fun i => List.getElem?_map (classifyOne net lm cfg.maxLength) req.pairs i⟩

/-- Witness for C1 at a concrete one-pair request with the fixture
configuration. -/
theorem C1_witness :
    wCfg.batchSize ≠ 0 ∧ wReqOne.pairs ≠ [] ∧ wReqOne.pairs.length ≤ 100 ∧
    ∃ rs : List NliResultItem,
      classify_nli wCfg ⟨some wNet, some (), some LABEL_MAP⟩ wReqOne =
        NliOutcome.ok rs ∧
      rs.length = wReqOne.pairs.length ∧
      ∀ i : Nat,
        rs[i]? = wReqOne.pairs[i]?.map (classifyOne wNet LABEL_MAP
          wCfg.maxLength) :=
  ⟨by decide, by decide, by decide,
    C1_results_match_input wCfg wNet LABEL_MAP wReqOne (by decide) (by decide)
      (by decide)⟩

/-- C2: every result returned by the classifier carries a `scores` mapping
whose keys are exactly the three canonical labels, whose values all lie in
the interval from 0 to 1, and whose values sum to 1 (exactly, in the real
semantics — hence within any positive tolerance such as 1e-4). -/
theorem C2_scores_well_formed (cfg : Config) (net : Net) (req : NliRequest)
    (rs : List NliResultItem) (r : NliResultItem)
    (hok : classify_nli cfg (load_model cfg net) req = NliOutcome.ok rs)
    (hr : r ∈ rs) :
    (r.scores.map Prod.fst).toFinset =
      ({"entailment", "neutral", "contradiction"} : Finset String) ∧
    (∀ q ∈ r.scores, 0 ≤ q.2 ∧ q.2 ≤ 1) ∧
    (r.scores.map Prod.snd).sum = 1 := by
  by_cases hd : containsSubstring "deberta" (lowercase cfg.nliModel) = true
  · have hst : load_model cfg net =
        ⟨some net, some (), some DEBERTA_LABEL_MAP⟩ := by
      unfold load_model
      simp [hd]
    rw [hst] at hok
    obtain ⟨p, rfl⟩ :=
      mem_results_classify_nli cfg net DEBERTA_LABEL_MAP req rs r hok hr
    refine ⟨?_, classifyOne_scores_bounds _ _ _ _,
      classifyOne_scores_sum _ _ _ _⟩
    rw [classifyOne_scores_keys]
    decide
  · have hst : load_model cfg net = ⟨some net, some (), some LABEL_MAP⟩ := by
      unfold load_model
      simp [hd]
    rw [hst] at hok
    obtain ⟨p, rfl⟩ :=
      mem_results_classify_nli cfg net LABEL_MAP req rs r hok hr
    refine ⟨?_, classifyOne_scores_bounds _ _ _ _,
      classifyOne_scores_sum _ _ _ _⟩
    rw [classifyOne_scores_keys]
    decide

/-- Witness for C2 at a concrete accepted request against the loaded fixture
state. -/
theorem C2_witness :
    ((classifyOne wNet LABEL_MAP wCfg.maxLength wPair).scores.map
        Prod.fst).toFinset =
      ({"entailment", "neutral", "contradiction"} : Finset String) ∧
    (∀ q ∈ (classifyOne wNet LABEL_MAP wCfg.maxLength wPair).scores,
      0 ≤ q.2 ∧ q.2 ≤ 1) ∧
    ((classifyOne wNet LABEL_MAP wCfg.maxLength wPair).scores.map
      Prod.snd).sum = 1 :=
  C2_scores_well_formed wCfg wNet wReqOne
    [classifyOne wNet LABEL_MAP wCfg.maxLength wPair]
    (classifyOne wNet LABEL_MAP wCfg.maxLength wPair)
    wReqOne_ok (List.mem_singleton.mpr rfl)

/-- C3: for every returned result, the pair (label, confidence) is an entry
of the result's own `scores` mapping and the confidence dominates every
probability in that mapping — so the label attains the maximum probability
and the confidence equals it. -/
theorem C3_label_is_max (cfg : Config) (net : Net) (lm : Fin 3 → String)
    (req : NliRequest) (rs : List NliResultItem) (r : NliResultItem)
    (hok : classify_nli cfg ⟨some net, some (), some lm⟩ req =
      NliOutcome.ok rs)
    (hr : r ∈ rs) :
    (r.label, r.confidence) ∈ r.scores ∧
    ∀ q ∈ r.scores, q.2 ≤ r.confidence := by
  obtain ⟨p, rfl⟩ := mem_results_classify_nli cfg net lm req rs r hok hr
  exact ⟨classifyOne_label_mem net lm cfg.maxLength p,
    classifyOne_confidence_max net lm cfg.maxLength p⟩

/-- Witness for C3 at a concrete accepted request. -/
theorem C3_witness :
    ((classifyOne wNet LABEL_MAP wCfg.maxLength wPair).label,
      (classifyOne wNet LABEL_MAP wCfg.maxLength wPair).confidence) ∈
      (classifyOne wNet LABEL_MAP wCfg.maxLength wPair).scores ∧
    ∀ q ∈ (classifyOne wNet LABEL_MAP wCfg.maxLength wPair).scores,
      q.2 ≤ (classifyOne wNet LABEL_MAP wCfg.maxLength wPair).confidence :=
  C3_label_is_max wCfg wNet LABEL_MAP wReqOne
    [classifyOne wNet LABEL_MAP wCfg.maxLength wPair]
    (classifyOne wNet LABEL_MAP wCfg.maxLength wPair)
    (by
      have hd : containsSubstring "deberta" (lowercase wCfg.nliModel) =
          false := by decide
      have hst : load_model wCfg wNet =
          ⟨some wNet, some (), some LABEL_MAP⟩ := by
        unfold load_model
        simp [hd]
      rw [← hst]
      exact wReqOne_ok)
    (List.mem_singleton.mpr rfl)

/-- C4: loading selects a fixed permutation of the three canonical labels by
inspecting the model identifier — the DeBERTa ordering (0 contradiction,
1 neutral, 2 entailment) exactly when the lowered identifier contains
"deberta", the standard ordering (0 entailment, 1 neutral, 2 contradiction)
otherwise — and every result of every request served from the loaded state
decodes its scores through that same map, so label orderings are never mixed
across requests. -/
theorem C4_label_map_fixed (cfg : Config) (net : Net) (req : NliRequest)
    (rs : List NliResultItem) (r : NliResultItem)
    (hok : classify_nli cfg (load_model cfg net) req = NliOutcome.ok rs)
    (hr : r ∈ rs) :
    ∃ lm : Fin 3 → String,
      (load_model cfg net).label_map = some lm ∧
      [lm 0, lm 1, lm 2] =
        (if containsSubstring "deberta" (lowercase cfg.nliModel) then
          ["contradiction", "neutral", "entailment"]
        else
          ["entailment", "neutral", "contradiction"]) ∧
      [lm 0, lm 1, lm 2].Perm ["entailment", "neutral", "contradiction"] ∧
      r.scores.map Prod.fst = [lm 0, lm 1, lm 2] := by
  by_cases hd : containsSubstring "deberta" (lowercase cfg.nliModel) = true
  · have hst : load_model cfg net =
        ⟨some net, some (), some DEBERTA_LABEL_MAP⟩ := by
      unfold load_model
      simp [hd]
    rw [hst] at hok
    obtain ⟨p, rfl⟩ :=
      mem_results_classify_nli cfg net DEBERTA_LABEL_MAP req rs r hok hr
    refine ⟨DEBERTA_LABEL_MAP, ?_, ?_, by decide,
      classifyOne_scores_keys _ _ _ _⟩
    · rw [hst]
    · rw [if_pos hd]
      decide
  · have hst : load_model cfg net = ⟨some net, some (), some LABEL_MAP⟩ := by
      unfold load_model
      simp [hd]
    rw [hst] at hok
    obtain ⟨p, rfl⟩ :=
      mem_results_classify_nli cfg net LABEL_MAP req rs r hok hr
    refine ⟨LABEL_MAP, ?_, ?_, by decide, classifyOne_scores_keys _ _ _ _⟩
    · rw [hst]
    · rw [if_neg hd]
      decide

/-- Witness for C4 at a concrete request against the loaded fixture state. -/
theorem C4_witness :
    ∃ lm : Fin 3 → String,
      (load_model wCfg wNet).label_map = some lm ∧
      [lm 0, lm 1, lm 2] =
        (if containsSubstring "deberta" (lowercase wCfg.nliModel) then
          ["contradiction", "neutral", "entailment"]
        else
          ["entailment", "neutral", "contradiction"]) ∧
      [lm 0, lm 1, lm 2].Perm ["entailment", "neutral", "contradiction"] ∧
      (classifyOne wNet LABEL_MAP wCfg.maxLength wPair).scores.map Prod.fst =
        [lm 0, lm 1, lm 2] :=
  C4_label_map_fixed wCfg wNet wReqOne
    [classifyOne wNet LABEL_MAP wCfg.maxLength wPair]
    (classifyOne wNet LABEL_MAP wCfg.maxLength wPair)
    wReqOne_ok (List.mem_singleton.mpr rfl)

/-- C5: splitting a pair list into contiguous batches of the configured size
and concatenating the per-batch result lists in batch order produces exactly
the single unsplit batch run (batch-boundary invariance), for any non-zero
batch size. -/
theorem C5_batch_boundary_invariance (net : Net) (lm : Fin 3 → String)
    (maxLen bs : Nat) (hbs : bs ≠ 0) (pairs : List NliPair) :
    ((chunkList bs pairs).map (classify_batch net lm maxLen)).flatten =
      classify_batch net lm maxLen pairs :=
  chunked_classify_batch net lm maxLen bs hbs pairs

/-- Witness for C5: a 40-pair request split into batches of 16 equals the
single-batch run. -/
theorem C5_witness :
    (16 : Nat) ≠ 0 ∧
    ((chunkList 16 (List.replicate 40 wPair)).map
        (classify_batch wNet LABEL_MAP 256)).flatten =
      classify_batch wNet LABEL_MAP 256 (List.replicate 40 wPair) :=
  ⟨by decide,
    C5_batch_boundary_invariance wNet LABEL_MAP 256 16 (by decide)
      (List.replicate 40 wPair)⟩

/-- C6 (counterexample): an empty-pair `/nli` request is not unconditionally
a success — while the model is not yet loaded, the very same empty request is
rejected with HTTP 503, because the readiness check precedes the empty-list
check. -/
theorem C6_counterexample :
    classify_nli defaultConfig initialState { pairs := [], model := none } =
      NliOutcome.httpError 503 "Model not loaded" := by
  unfold classify_nli initialState
  simp

/-- C6 (amended): once the service is initialized (model and tokenizer
loaded), a `/nli` request whose pair list is empty succeeds immediately with
an empty result list — it is not treated as an error. -/
theorem C6_empty_list_ok (cfg : Config) (net : Net) (tk : Unit)
    (lmo : Option (Fin 3 → String)) (req : NliRequest)
    (he : req.pairs = []) :
    classify_nli cfg ⟨some net, some tk, lmo⟩ req = NliOutcome.ok [] := by
  unfold classify_nli
  simp [he]

/-- Witness for the amended C6 at the concrete empty request. -/
theorem C6_witness :
    wReqEmpty.pairs = [] ∧
    classify_nli wCfg ⟨some wNet, some (), some LABEL_MAP⟩ wReqEmpty =
      NliOutcome.ok [] :=
  ⟨rfl, C6_empty_list_ok wCfg wNet () (some LABEL_MAP) wReqEmpty rfl⟩

/-- C7: on an initialized service, a `/nli` request with more than 100 pairs
is rejected with HTTP 400; the outcome is the same for every network and
label map (both are universally quantified, including an absent label map),
so no classification compute is attempted for any pair. -/
theorem C7_cap_rejected (cfg : Config) (net : Net) (tk : Unit)
    (lmo : Option (Fin 3 → String)) (req : NliRequest)
    (hlen : 100 < req.pairs.length) :
    classify_nli cfg ⟨some net, some tk, lmo⟩ req =
      NliOutcome.httpError 400 "Maximum 100 pairs per request" := by
  have hbe : req.pairs.isEmpty = false := by
    cases h : req.pairs with
    | nil =>
        rw [h] at hlen
        simp at hlen
    | cons a t => rfl
  unfold classify_nli
  simp [hbe, hlen]

/-- Witness for C7 at the concrete 101-pair request. -/
theorem C7_witness :
    100 < wReq101.pairs.length ∧
    classify_nli wCfg ⟨some wNet, some (), some LABEL_MAP⟩ wReq101 =
      NliOutcome.httpError 400 "Maximum 100 pairs per request" :=
  ⟨by decide,
    C7_cap_rejected wCfg wNet () (some LABEL_MAP) wReq101 (by decide)⟩

/-- C8: every `/nli` request arriving while the service state is
uninitialized (model or tokenizer not loaded) is rejected with HTTP 503,
regardless of the pair list — empty, over the cap, or anything else — because
the readiness check precedes all other validation. -/
theorem C8_not_ready_rejected (cfg : Config) (st : ServiceState)
    (req : NliRequest) (h : st.model = none ∨ st.tokenizer = none) :
    classify_nli cfg st req = NliOutcome.httpError 503 "Model not loaded" := by
  unfold classify_nli
  rcases h with h | h <;> simp [h]

/-- Witness for C8: the fresh-start state rejects even a request whose pair
list exceeds the cap with 503, not 400. -/
theorem C8_witness :
    (initialState.model = none ∨ initialState.tokenizer = none) ∧
    classify_nli defaultConfig initialState wReq101 =
      NliOutcome.httpError 503 "Model not loaded" :=
  ⟨Or.inl rfl,
    C8_not_ready_rejected defaultConfig initialState wReq101 (Or.inl rfl)⟩

/-- C9: the `/nli` response is a function of the pairs list alone — two
requests with identical pairs receive identical responses for any service
state, in particular the optional `model` field of the request has no effect
on the response. -/
theorem C9_response_determined_by_pairs (cfg : Config) (st : ServiceState)
    (req1 req2 : NliRequest) (h : req1.pairs = req2.pairs) :
    classify_nli cfg st req1 = classify_nli cfg st req2 := by
  unfold classify_nli
  rw [h]

/-- Witness for C9: the same pair list with and without a `model` override
yields the same response. -/
theorem C9_witness :
    wReqOne.pairs = wReqAlt.pairs ∧
    classify_nli wCfg (load_model wCfg wNet) wReqOne =
      classify_nli wCfg (load_model wCfg wNet) wReqAlt :=
  ⟨rfl,
    C9_response_determined_by_pairs wCfg (load_model wCfg wNet) wReqOne
      wReqAlt rfl⟩

/-- C10: a health query against a state whose model is not loaded returns
HTTP 503, and a health query against the state produced by `load_model`
reports healthy together with the configured model identifier and device. -/
theorem C10_health_reflects_state (cfg : Config) (st : ServiceState)
    (net : Net) (h : st.model = none) :
    health_check cfg st = Except.error (503, "Model not loaded") ∧
    health_check cfg (load_model cfg net) =
      Except.ok ⟨"healthy", cfg.nliModel, cfg.device⟩ := by
  refine ⟨?_, rfl⟩
  unfold health_check
  simp [h]

/-- Witness for C10 at the fresh-start state and the loaded default
configuration. -/
theorem C10_witness :
    initialState.model = none ∧
    (health_check defaultConfig initialState =
        Except.error (503, "Model not loaded") ∧
      health_check defaultConfig (load_model defaultConfig wNet) =
        Except.ok ⟨"healthy", defaultConfig.nliModel,
          defaultConfig.device⟩) :=
  ⟨rfl, C10_health_reflects_state defaultConfig initialState wNet rfl⟩

end Spectyra
